import Mathlib

/-!
Verification development for the Zabbix AI assistant core
(source: streamlit_app.py).

The non-UI decision pipeline is embedded shallowly:

* the sensitive-data sanitizer (`SENSITIVE_PATTERNS`, `sanitize_message`)
  via an executable backtracking regular-expression engine that mirrors
  Python `re` semantics (leftmost match, ordered alternation, greedy and
  lazy quantifiers, word boundaries, IGNORECASE, `re.sub` replacing all
  non-overlapping matches left to right);
* the intent resolver (`call_gemini`) with the network transport, the
  secrets store and `json.loads` modelled as environment parameters
  (they are external collaborators, not repository code);
* the local fallback matcher (`generate_mock_response`);
* the per-session command cache (`get_cache_key`, `set_command_cache`,
  `get_cached_command`) and the resolution prefix of `process_message`;
* the topology compiler (`generate_zabbix_config`);
* the host query engine (`get_hosts_by_condition`, `get_hosts_by_status`,
  `get_server_status_summary`).

Python data is represented as follows: `str` as `String` (operated on as
`List Char`), numeric metric values as `ℚ`, dicts as association lists in
insertion order (Python dicts iterate in insertion order), Python `set`
as first-occurrence-deduplicated lists (a stable iteration-order model),
and `None`-able fields as `Option`. Pythonic truthiness of strings and
numbers (empty string and zero are falsy) is modelled explicitly at each
use site.
-/

namespace ZabbixAI

/-! ## Character and string utilities (models of Python `str` methods) -/

/-- Model of Python `str.lower` on a character: ASCII uppercase letters are
mapped to lowercase, everything else (including Japanese text) unchanged. -/
def lowerChar (c : Char) : Char :=
  if 65 ≤ c.toNat ∧ c.toNat ≤ 90 then Char.ofNat (c.toNat + 32) else c

/-- ASCII uppercase of a character (used for IGNORECASE class matching). -/
def upperChar (c : Char) : Char :=
  if 97 ≤ c.toNat ∧ c.toNat ≤ 122 then Char.ofNat (c.toNat - 32) else c

/-- Whitespace in the sense of Python `\s` / `str.strip`: space, tab,
newline, carriage return, vertical tab, form feed, ideographic space. -/
def isSpaceP (c : Char) : Bool :=
  decide (c.toNat = 32 ∨ c.toNat = 9 ∨ c.toNat = 10 ∨ c.toNat = 13 ∨
    c.toNat = 11 ∨ c.toNat = 12 ∨ c.toNat = 12288)

/-- ASCII digit, the `\d` class for the inputs of this program. -/
def isDigitP (c : Char) : Bool :=
  48 ≤ c.toNat && c.toNat ≤ 57

/-- Japanese punctuation characters treated as non-word (approximating the
Unicode word-character classification of Python `re` for the character
repertoire appearing in this program). -/
def jpPunct : List Char := ['。', '、', '：', '，', '．', '！', '？', '（', '）']

/-- The `\w` class: ASCII alphanumerics and underscore, plus non-ASCII
letters (Python `re` uses the Unicode word classification; for the
repertoire of this program every non-ASCII character except whitespace and
the listed punctuation is a word character). -/
def isWordP (c : Char) : Bool :=
  (48 ≤ c.toNat && c.toNat ≤ 57) || (65 ≤ c.toNat && c.toNat ≤ 90) ||
  (97 ≤ c.toNat && c.toNat ≤ 122) || c = '_' ||
  (128 ≤ c.toNat && !isSpaceP c && !jpPunct.contains c)

/-- Model of Python `str.lower`. -/
def pyLower (s : String) : String := String.mk (s.data.map lowerChar)

/-- Model of Python `str.strip` (no argument): remove whitespace from both
ends. -/
def pyStrip (s : String) : String :=
  String.mk (((s.data.dropWhile isSpaceP).reverse.dropWhile isSpaceP).reverse)

/-- Model of Python's substring containment `needle in hay`. -/
def containsSub (hay needle : List Char) : Bool :=
  needle.isPrefixOf hay ||
    match hay with
    | [] => false
    | _ :: t => containsSub t needle

/-- First-occurrence deduplication with an explicit seen-accumulator: the
iteration-order model of a Python `set` built by successive `add` calls. -/
def firstDedupAcc {α : Type} [DecidableEq α] (seen : List α) : List α → List α
  | [] => []
  | x :: xs =>
    if x ∈ seen then firstDedupAcc seen xs
    else x :: firstDedupAcc (x :: seen) xs

/-- The distinct elements of a list in order of first occurrence. -/
def firstDedup {α : Type} [DecidableEq α] (l : List α) : List α :=
  firstDedupAcc [] l

/-! ## A small regular-expression engine (model of Python `re`)

Patterns are abstract syntax trees; matching is a continuation-passing
backtracking search with the priority order of Python `re`: alternatives
are tried left to right, greedy quantifiers prefer the longer match, lazy
quantifiers the shorter.  A fuel argument makes the recursion structural
(fuel bounds the recursion depth; `reFuel` is far above the depth any of
the fixed patterns of this program can reach on a given input). -/

/-- Character classes of the patterns used by the program. -/
inductive CClass : Type where
  | single (c : Char)
  | rng (lo hi : Char)
  | digit
  | word
  | space
  | anyc
  | union (a b : CClass)
  | compl (a : CClass)

/-- Literal character comparison, optionally case-insensitive
(`re.IGNORECASE` folds case on both sides). -/
def charMatch (ci : Bool) (p c : Char) : Bool :=
  p = c || (ci && lowerChar p = lowerChar c)

/-- Class membership; with `ci` a character also matches when one of its
case variants is in the class, and negation complements the
case-insensitive test (Python IGNORECASE semantics). -/
def classMatch (ci : Bool) : CClass → Char → Bool
  | .single x, c => charMatch ci x c
  | .rng lo hi, c =>
    (lo.toNat ≤ c.toNat && c.toNat ≤ hi.toNat) ||
      (ci && ((lo.toNat ≤ (lowerChar c).toNat && (lowerChar c).toNat ≤ hi.toNat) ||
              (lo.toNat ≤ (upperChar c).toNat && (upperChar c).toNat ≤ hi.toNat)))
  | .digit, c => isDigitP c
  | .word, c => isWordP c
  | .space, c => isSpaceP c
  | .anyc, _ => true
  | .union a b, c => classMatch ci a c || classMatch ci b c
  | .compl a, c => !classMatch ci a c

/-- Regular expressions: empty, literal, class, concatenation, ordered
alternation, star (greedy or lazy), numbered capture group, and the word
boundary `\b`. -/
inductive RE : Type where
  | eps
  | lit (c : Char)
  | cls (cc : CClass)
  | cat (a b : RE)
  | alt (a b : RE)
  | star (lazy : Bool) (r : RE)
  | grp (n : Nat) (r : RE)
  | wb

/-- `r+` -/
def rplus (r : RE) : RE := .cat r (.star false r)

/-- `r?` (greedy: presence preferred) -/
def ropt (r : RE) : RE := .alt r .eps

/-- Literal string. -/
def rstr (s : String) : RE :=
  s.data.foldr (fun c acc => RE.cat (.lit c) acc) .eps

/-- Ordered alternation over a list (first alternative preferred). -/
def ralt : List RE → RE
  | [] => .eps
  | [r] => r
  | r :: rs => .alt r (ralt rs)

/-- Concatenation of a list of parts. -/
def rcat (l : List RE) : RE := l.foldr RE.cat .eps

/-- Fixed repetition, as in `{16}`. -/
def rrep : Nat → RE → RE
  | 0, _ => .eps
  | n + 1, r => .cat r (rrep n r)

/-- Captured groups: group index paired with the captured characters; a
later capture of the same index shadows an earlier one. -/
abbrev Caps := List (Nat × List Char)

/-- Word-character status of the previous character (`none` = string
start) and of the next character (`[]` = string end); `\b` holds when the
two differ. -/
def atBoundary (prev : Option Char) (s : List Char) : Bool :=
  (match prev with | some c => isWordP c | none => false) !=
    (match s with | c :: _ => isWordP c | [] => false)

/-- The backtracking matcher.  `reRun ci fuel r prev s caps k` tries to
match `r` at the start of `s` (with `prev` the character just before `s`,
for `\b`), extending captures `caps`, and calls the continuation `k` on
each candidate suffix in Python's priority order, returning the first
success.  Every recursive call decreases `fuel`; the star case additionally
insists that each iteration consumes at least one character (true of every
star body in this program's patterns, and exactly Python's behaviour for
them). -/
def reRun (ci : Bool) :
    Nat → RE → Option Char → List Char → Caps →
      (Option Char → List Char → Caps → Option (List Char × Caps)) →
      Option (List Char × Caps)
  | 0, _, _, _, _, _ => none
  | _ + 1, .eps, prev, s, caps, k => k prev s caps
  | _ + 1, .lit c, _, s, caps, k =>
    match s with
    | [] => none
    | x :: xs => if charMatch ci c x then k (some x) xs caps else none
  | _ + 1, .cls cc, _, s, caps, k =>
    match s with
    | [] => none
    | x :: xs => if classMatch ci cc x then k (some x) xs caps else none
  | fuel + 1, .cat a b, prev, s, caps, k =>
    reRun ci fuel a prev s caps (fun p2 s2 c2 => reRun ci fuel b p2 s2 c2 k)
  | fuel + 1, .alt a b, prev, s, caps, k =>
    match reRun ci fuel a prev s caps k with
    | some res => some res
    | none => reRun ci fuel b prev s caps k
  | fuel + 1, .star lz r, prev, s, caps, k =>
    if lz then
      match k prev s caps with
      | some res => some res
      | none =>
        reRun ci fuel r prev s caps (fun p2 s2 c2 =>
          if s2.length < s.length then reRun ci fuel (.star lz r) p2 s2 c2 k else none)
    else
      match reRun ci fuel r prev s caps (fun p2 s2 c2 =>
          if s2.length < s.length then reRun ci fuel (.star lz r) p2 s2 c2 k else none) with
      | some res => some res
      | none => k prev s caps
  | fuel + 1, .grp n r, prev, s, caps, k =>
    reRun ci fuel r prev s caps (fun p2 s2 c2 =>
      k p2 s2 ((n, s.take (s.length - s2.length)) :: c2))
  | _ + 1, .wb, prev, s, caps, k =>
    if atBoundary prev s then k prev s caps else none

/-- Fuel bound: proportional to the input length, with a generous constant
covering the (fixed, small) depth of each pattern of this program. -/
def reFuel (s : List Char) : Nat := 200 * (s.length + 5)

/-- Try to match `r` at the start of `s`; on success return
(matched characters, captures, rest). -/
def tryMatch (ci : Bool) (r : RE) (prev : Option Char) (s : List Char) :
    Option (List Char × Caps × List Char) :=
  match reRun ci (reFuel s) r prev s [] (fun _ s2 c2 => some (s2, c2)) with
  | some (rest, caps) => some (s.take (s.length - rest.length), caps, rest)
  | none => none

/-- Leftmost search, as in `re.search`: try each start position from the
left; on success return (text before the match, matched characters,
captures, rest). -/
def scanFrom (ci : Bool) (r : RE) :
    List Char → Option Char → List Char →
      Option (List Char × List Char × Caps × List Char)
  | accRev, prev, s =>
    match tryMatch ci r prev s with
    | some (m, caps, rest) => some (accRev.reverse, m, caps, rest)
    | none =>
      match s with
      | [] => none
      | c :: cs => scanFrom ci r (c :: accRev) (some c) cs

/-- `re.search(pattern, s)` as a Boolean. -/
def reTest (ci : Bool) (r : RE) (s : List Char) : Bool :=
  (scanFrom ci r [] none s).isSome

/-- The capture of group `n` of the leftmost match, as in
`re.search(...).group(n)`. -/
def searchGroup (ci : Bool) (r : RE) (n : Nat) (s : List Char) :
    Option (List Char) :=
  match scanFrom ci r [] none s with
  | some (_, _, caps, _) => caps.lookup n
  | none => none

/-- Replacement templates: literal pieces and group backreferences
(`\1`). -/
inductive ReplPart : Type where
  | rawlit (s : String)
  | ref (n : Nat)

/-- Instantiate a replacement template with the captures of a match. -/
def applyRepl (parts : List ReplPart) (caps : Caps) : List Char :=
  parts.flatMap fun p =>
    match p with
    | .rawlit s => s.data
    | .ref n => (caps.lookup n).getD []

/-- `re.sub`: replace every non-overlapping match, scanning left to right;
scanning resumes after each match on the original text (the last matched
character is the `\b` context for the continuation). -/
def subAllAux (ci : Bool) (r : RE) (repl : List ReplPart) :
    Nat → Option Char → List Char → List Char
  | 0, _, s => s
  | fuel + 1, prev, s =>
    match scanFrom ci r [] prev s with
    | none => s
    | some (before, m, caps, rest) =>
      match m.getLast? with
      | none => s
      | some lastc =>
        before ++ applyRepl repl caps ++
          subAllAux ci r repl fuel (some lastc) rest

/-- `re.sub(pattern, repl, s)`. -/
def reSub (ci : Bool) (r : RE) (repl : List ReplPart) (s : List Char) :
    List Char :=
  subAllAux ci r repl (s.length + 1) none s

/-! ## The sanitizer (`SENSITIVE_PATTERNS`, `sanitize_message`)

Each rule of the source's `SENSITIVE_PATTERNS` list is transcribed into a
pattern AST, a replacement template and the category string the source
computes for it at detection time.  All rules are matched with
IGNORECASE: rules given as two-element tuples are compiled with
`re.IGNORECASE` by the `else` branch of `sanitize_message`, and every
three-element tuple carries `re.IGNORECASE` explicitly.  The category of a
rule is what the source's chain of substring tests on the (fixed) pattern
and replacement strings evaluates to; note in particular that the AWS
access-key-ID rule falls through to the generic "認証情報" branch because
its pattern string contains neither "aws" nor any of the earlier
keywords. -/

/-- A sanitization rule: pattern, replacement and detected category. -/
structure SanRule : Type where
  pattern : RE
  repl : List ReplPart
  category : String

/-- `[=:]` -/
def sepColon : CClass := .union (.single '=') (.single ':')

/-- `[=:：]` (rule 2 also accepts the fullwidth colon) -/
def sepColonJp : CClass := .union (.union (.single '=') (.single ':')) (.single '：')

/-- `[_-]` -/
def udash : CClass := .union (.single '_') (.single '-')

/-- `["']` -/
def quoteC : CClass := .union (.single '"') (.single (Char.ofNat 39))

/-- `[\w\S]` -/
def wordOrNonSpace : CClass := .union .word (.compl .space)

/-- `\s*` -/
def spaceStar : RE := .star false (.cls .space)

/-- `["']?` -/
def optQuote : RE := ropt (.cls quoteC)

/-- `\s*[=:]\s*` -/
def sepEq : RE := rcat [spaceStar, .cls sepColon, spaceStar]

/-- `["']?[\w\S]+["']?` (the value part of the password/auth rules) -/
def quotedValue : RE := rcat [optQuote, rplus (.cls wordOrNonSpace), optQuote]

/-- `(password|passwd|pass|pw)\s*[=:]\s*["']?[\w\S]+["']?`  →  `\1=***REDACTED***` -/
def r01_password : SanRule where
  pattern := rcat [.grp 1 (ralt [rstr "password", rstr "passwd", rstr "pass", rstr "pw"]),
    sepEq, quotedValue]
  repl := [.ref 1, .rawlit "=***REDACTED***"]
  category := "パスワード"

/-- `(パスワード|暗証番号)\s*[=:：]\s*[\w\S]+`  →  `\1=***REDACTED***` -/
def r02_passwordJp : SanRule where
  pattern := rcat [.grp 1 (ralt [rstr "パスワード", rstr "暗証番号"]),
    spaceStar, .cls sepColonJp, spaceStar, rplus (.cls wordOrNonSpace)]
  repl := [.ref 1, .rawlit "=***REDACTED***"]
  category := "パスワード"

/-- `(api[_-]?key|apikey|secret[_-]?key|access[_-]?key)\s*[=:]\s*["']?[\w\-]+["']?` -/
def r03_apiKey : SanRule where
  pattern := rcat [.grp 1 (ralt [
      rcat [rstr "api", ropt (.cls udash), rstr "key"],
      rstr "apikey",
      rcat [rstr "secret", ropt (.cls udash), rstr "key"],
      rcat [rstr "access", ropt (.cls udash), rstr "key"]]),
    sepEq, optQuote, rplus (.cls (.union .word (.single '-'))), optQuote]
  repl := [.ref 1, .rawlit "=***REDACTED***"]
  category := "APIキー/トークン"

/-- `(bearer|token|jwt)\s+[\w\-\.]+`  →  `\1 ***REDACTED***` -/
def r04_bearer : SanRule where
  pattern := rcat [.grp 1 (ralt [rstr "bearer", rstr "token", rstr "jwt"]),
    rplus (.cls .space), rplus (.cls (.union .word (.union (.single '-') (.single '.'))))]
  repl := [.ref 1, .rawlit " ***REDACTED***"]
  category := "APIキー/トークン"

/-- `(auth|credential|secret)\s*[=:]\s*["']?[\w\S]+["']?` -/
def r05_auth : SanRule where
  pattern := rcat [.grp 1 (ralt [rstr "auth", rstr "credential", rstr "secret"]),
    sepEq, quotedValue]
  repl := [.ref 1, .rawlit "=***REDACTED***"]
  category := "APIキー/トークン"

/-- `[\s\-]?` -/
def optNumSep : RE := ropt (.cls (.union .space (.single '-')))

/-- `\b(\d{4}[\s\-]?\d{4}[\s\-]?\d{4}[\s\-]?\d{4})\b`  →  `***CARD-REDACTED***` -/
def r06_card : SanRule where
  pattern := rcat [.wb, .grp 1 (rcat [rrep 4 (.cls .digit), optNumSep,
    rrep 4 (.cls .digit), optNumSep, rrep 4 (.cls .digit), optNumSep,
    rrep 4 (.cls .digit)]), .wb]
  repl := [.rawlit "***CARD-REDACTED***"]
  category := "クレジットカード番号"

/-- `\b(\d{3}[\s\-]?\d{2}[\s\-]?\d{4})\b`  →  `***SSN-REDACTED***` -/
def r07_ssn : SanRule where
  pattern := rcat [.wb, .grp 1 (rcat [rrep 3 (.cls .digit), optNumSep,
    rrep 2 (.cls .digit), optNumSep, rrep 4 (.cls .digit)]), .wb]
  repl := [.rawlit "***SSN-REDACTED***"]
  category := "社会保障番号"

/-- `\b(\d{4}[\s\-]?\d{4}[\s\-]?\d{4})\b`  →  `***MYNUMBER-REDACTED***` -/
def r08_myNumber : SanRule where
  pattern := rcat [.wb, .grp 1 (rcat [rrep 4 (.cls .digit), optNumSep,
    rrep 4 (.cls .digit), optNumSep, rrep 4 (.cls .digit)]), .wb]
  repl := [.rawlit "***MYNUMBER-REDACTED***"]
  category := "マイナンバー"

/-- `(Basic\s+)[A-Za-z0-9+/=]+`  →  `\1***REDACTED***` -/
def r09_basicAuth : SanRule where
  pattern := rcat [.grp 1 (rcat [rstr "Basic", rplus (.cls .space)]),
    rplus (.cls (.union (.union (.rng 'A' 'Z') (.rng 'a' 'z'))
      (.union (.rng '0' '9') (.union (.single '+') (.union (.single '/') (.single '='))))))]
  repl := [.ref 1, .rawlit "***REDACTED***"]
  category := "認証情報"

/-- `(AKIA|ABIA|ACCA|ASIA)[A-Z0-9]{16}`  →  `***AWS-KEY-REDACTED***`
(category falls through to the generic branch: the pattern string contains
none of the earlier keywords and no "aws"). -/
def r10_awsKeyId : SanRule where
  pattern := rcat [.grp 1 (ralt [rstr "AKIA", rstr "ABIA", rstr "ACCA", rstr "ASIA"]),
    rrep 16 (.cls (.union (.rng 'A' 'Z') (.rng '0' '9')))]
  repl := [.rawlit "***AWS-KEY-REDACTED***"]
  category := "認証情報"

/-- `(aws[_-]?secret[_-]?access[_-]?key)\s*[=:]\s*[\w/+=]+`  →  `\1=***REDACTED***`
(the pattern string contains "secret", so the source categorizes it as an
API-key detection). -/
def r11_awsSecret : SanRule where
  pattern := rcat [.grp 1 (rcat [rstr "aws", ropt (.cls udash), rstr "secret",
      ropt (.cls udash), rstr "access", ropt (.cls udash), rstr "key"]),
    sepEq, rplus (.cls (.union .word (.union (.single '/') (.union (.single '+') (.single '=')))))]
  repl := [.ref 1, .rawlit "=***REDACTED***"]
  category := "APIキー/トークン"

/-- `-----BEGIN\s+(RSA\s+)?PRIVATE\s+KEY-----[\s\S]*?-----END\s+(RSA\s+)?PRIVATE\s+KEY-----` -/
def r12_privateKey : SanRule where
  pattern := rcat [rstr "-----BEGIN", rplus (.cls .space),
    ropt (.grp 1 (rcat [rstr "RSA", rplus (.cls .space)])),
    rstr "PRIVATE", rplus (.cls .space), rstr "KEY-----",
    .star true (.cls .anyc),
    rstr "-----END", rplus (.cls .space),
    ropt (.grp 2 (rcat [rstr "RSA", rplus (.cls .space)])),
    rstr "PRIVATE", rplus (.cls .space), rstr "KEY-----"]
  repl := [.rawlit "***PRIVATE-KEY-REDACTED***"]
  category := "秘密鍵"

/-- `(mysql|postgres|mongodb|redis)://[^\s]+`  →  `\1://***REDACTED***` -/
def r13_dbUri : SanRule where
  pattern := rcat [.grp 1 (ralt [rstr "mysql", rstr "postgres", rstr "mongodb", rstr "redis"]),
    rstr "://", rplus (.cls (.compl .space))]
  repl := [.ref 1, .rawlit "://***REDACTED***"]
  category := "データベース接続情報"

/-- The ordered rule list of the source. -/
def SENSITIVE_PATTERNS : List SanRule :=
  [r01_password, r02_passwordJp, r03_apiKey, r04_bearer, r05_auth,
   r06_card, r07_ssn, r08_myNumber, r09_basicAuth, r10_awsKeyId,
   r11_awsSecret, r12_privateKey, r13_dbUri]

/-- One iteration of the sanitizer loop: if the rule's pattern occurs in
the current text, record its category and substitute all occurrences. -/
def sanitizeStep (st : List Char × List String) (rule : SanRule) :
    List Char × List String :=
  if reTest true rule.pattern st.1 then
    (reSub true rule.pattern rule.repl st.1, st.2 ++ [rule.category])
  else st

/-- `sanitize_message(message) -> (sanitized, detected)`: apply the rules
in order over the (possibly already redacted) text, collecting the
distinct detected categories.  (The source's final `list(set(detected))`
is modelled as first-occurrence deduplication — a fixed iteration
order.) -/
def sanitize_message (message : String) : String × List String :=
  let res := SENSITIVE_PATTERNS.foldl sanitizeStep (message.data, [])
  (String.mk res.1, firstDedup res.2)

/-! ## Intents and the local fallback matcher (`generate_mock_response`) -/

/-- Parameter values of an intent (strings or numbers). -/
inductive PVal : Type where
  | pstr (s : String)
  | pnum (n : Int)
deriving DecidableEq, Repr

/-- An intent dictionary: `{"intent": ..., "action": ..., "parameters": ...}`. -/
structure Intent : Type where
  intent : String
  action : String
  parameters : List (String × PVal)
deriving DecidableEq, Repr

/-- `([A-Z][A-Z0-9_-]+)` — the host-id token pattern (case-sensitive). -/
def hostIdRe : RE :=
  .grp 1 (rcat [.cls (.rng 'A' 'Z'),
    rplus (.cls (.union (.rng 'A' 'Z') (.union (.rng '0' '9') udash)))])

/-- `(\d+)\s*(分|時間|hour|min)` — the maintenance-duration pattern. -/
def durationRe : RE :=
  rcat [.grp 1 (rplus (.cls .digit)), spaceStar,
    .grp 2 (ralt [rstr "分", rstr "時間", rstr "hour", rstr "min"])]

/-- `(\d+)\s*%?` — the threshold pattern. -/
def thresholdRe : RE :=
  rcat [.grp 1 (rplus (.cls .digit)), spaceStar, ropt (.lit '%')]

/-- `int()` of a digit string. -/
def natOfDigits (l : List Char) : Nat :=
  l.foldl (fun acc c => acc * 10 + (c.toNat - 48)) 0

/-- The `search_hosts` arm of the fallback matcher: threshold extracted
from the original message (default 80), operator from the lowered message
(`<` for 以下/未満, `>=` for 以上, else `>`). -/
def mockSearchHosts (metricEn : String) (user_message : String) : Intent :=
  let ml := (pyLower user_message).data
  let threshold : Nat :=
    match searchGroup false thresholdRe 1 user_message.data with
    | some d => natOfDigits d
    | none => 80
  let operator : String :=
    if containsSub ml "以下".data || containsSub ml "未満".data then "<"
    else if containsSub ml "以上".data then ">=" else ">"
  ⟨metricEn ++ toString threshold ++ "%" ++ operator ++ "のホストを検索",
   "search_hosts",
   [("metric", .pstr metricEn), ("operator", .pstr operator),
    ("value", .pnum (threshold : Int))]⟩

/-- `generate_mock_response(user_message)`: the deterministic local
fallback matcher — an ordered, first-match-wins keyword chain over the
lowered text, with host ids and numbers extracted by the patterns above.
The metrics/status/info arm only fires when a host-id token is found;
otherwise the chain continues (as in the source, where that branch
returns only inside `if host_match:`). -/
def generate_mock_response (user_message : String) : Intent :=
  let ml := (pyLower user_message).data
  let orig := user_message.data
  if containsSub ml "トポロジー".data &&
      (containsSub ml "設定".data || containsSub ml "監視".data) then
    ⟨"トポロジーからZabbix設定を生成", "generate_config", []⟩
  else if containsSub ml "メンテナンス".data then
    let host_id : String :=
      match searchGroup false hostIdRe 1 orig with
      | some h => String.mk h
      | none => "WAN_ROUTER_01"
    let duration : Int :=
      match scanFrom false durationRe [] none ml with
      | some (_, _, caps, _) =>
        let d : Int := (natOfDigits ((caps.lookup 1).getD []) : Int)
        let unit := (caps.lookup 2).getD []
        if containsSub unit "時間".data || containsSub unit "hour".data then d * 60 else d
      | none => 60
    ⟨host_id ++ "をメンテナンスモードに設定", "set_maintenance",
     [("host_id", .pstr host_id), ("duration_minutes", .pnum duration)]⟩
  else if containsSub ml "cpu".data then mockSearchHosts "cpu" user_message
  else if containsSub ml "メモリ".data then mockSearchHosts "memory" user_message
  else if containsSub ml "ディスク".data then mockSearchHosts "disk" user_message
  else if (containsSub ml "メトリクス".data || containsSub ml "状態".data ||
      containsSub ml "情報".data) && (searchGroup false hostIdRe 1 orig).isSome then
    let h := String.mk ((searchGroup false hostIdRe 1 orig).getD [])
    ⟨h ++ "のメトリクスを取得", "get_metrics", [("host_id", .pstr h)]⟩
  else if containsSub ml "アラート".data || containsSub ml "障害".data ||
      containsSub ml "問題".data then
    ⟨"現在のアラート一覧を取得", "get_alerts", []⟩
  else if containsSub ml "グラフ".data || containsSub ml "推移".data ||
      containsSub ml "トレンド".data then
    let host_id : String :=
      match searchGroup false hostIdRe 1 orig with
      | some h => String.mk h
      | none => "WAN_ROUTER_01"
    let metric : String :=
      if containsSub ml "cpu".data then "cpu"
      else if containsSub ml "メモリ".data then "memory" else "cpu"
    ⟨host_id ++ "の" ++ metric ++ "グラフを表示", "show_graph",
     [("host_id", .pstr host_id), ("metric", .pstr metric), ("hours", .pnum 24)]⟩
  else if containsSub ml "サーバー".data then
    ⟨"サーバー情報を表示", "show_server_info", []⟩
  else
    ⟨"不明", "unknown", [("original_query", .pstr user_message)]⟩

/-! ## The remote classification call (`call_gemini`)

The network transport (`requests.post`, HTTP status check, extraction of
`result["candidates"][0]["content"]["parts"][0]["text"]`) and the
credential store are external collaborators; they are modelled as an
environment.  A remote outcome is either one of the failure modes the
source's `try/except` recovers from (timeout, any other transport or
shape exception) or the successfully extracted response text, from which
the source extracts the first balanced JSON span with
`re.search(r'\{[\s\S]*\}', text)` (first open brace through last close
brace) and parses it with the external `json.loads`, modelled as the
`loads` oracle.  Any parse failure falls back to the local matcher. -/

/-- Outcome of the remote HTTP call and response-shape extraction. -/
inductive RemoteOutcome : Type where
  | timeout
  | transportError
  | badShape
  | text (body : String)
deriving DecidableEq, Repr

/-- The environment of `call_gemini`: API key (empty string = absent,
matching the source's falsiness test), the remote transport and the JSON
parser. -/
structure GeminiEnv : Type where
  apiKey : String
  remote : String → RemoteOutcome
  loads : String → Option Intent

/-- The fixed system instruction of the classification request. -/
def gemini_system_prompt : String :=
  "あなたはZabbix監視システムのAIアシスタントです。\nユーザーの意図を解析し、以下のJSON形式で応答してください:\n\x7b\"intent\": \"意図\", \"action\": \"アクション名\", \"parameters\": \x7bパラメータ\x7d\x7d\n\nアクション: generate_config, set_maintenance, search_hosts, get_metrics, get_alerts, show_graph"

/-- The full prompt sent over the network: system instruction plus the
sanitized user text. -/
def gemini_prompt (sanitized : String) : String :=
  gemini_system_prompt ++ "\n\nユーザー: " ++ sanitized

/-- Longest prefix of a character list that ends with a close brace. -/
def upToLastClose : List Char → Option (List Char)
  | [] => none
  | c :: cs =>
    match upToLastClose cs with
    | some t => some (c :: t)
    | none => if c = Char.ofNat 125 then some [c] else none

/-- `re.search(r'\{[\s\S]*\}', s)`: the span from the first open brace
through the last close brace, when both exist in that order. -/
def json_search (s : String) : Option String :=
  match s.data.dropWhile (· ≠ Char.ofNat 123) with
  | [] => none
  | ob :: rest =>
    match upToLastClose rest with
    | some t => some (String.mk (ob :: t))
    | none => none

/-- `call_gemini(user_message)`: sanitize, then — if a key is configured —
send the prompt built from the *sanitized* text and parse the response,
falling back to `generate_mock_response` on the sanitized text on missing
credentials, timeout, transport error, response-shape error, missing JSON
span, or JSON parse failure.  The second component is the list of request
bodies sent over the network during the call. -/
def call_gemini (env : GeminiEnv) (user_message : String) :
    Intent × List String :=
  let sanitized := (sanitize_message user_message).1
  if env.apiKey = "" then (generate_mock_response sanitized, [])
  else
    let body := gemini_prompt sanitized
    let result :=
      match env.remote body with
      | .text t =>
        match json_search t with
        | some j =>
          match env.loads j with
          | some d => d
          | none => generate_mock_response sanitized
        | none => generate_mock_response sanitized
      | _ => generate_mock_response sanitized
    (result, [body])

/-! ## The command cache -/

/-- A cache entry: original intent text, resolved command, creation time
and use count (starting at 1, incremented on every hit). -/
structure CacheEntry : Type where
  intent : String
  command : Intent
  created_at : String
  use_count : Nat
deriving DecidableEq, Repr

/-- The per-session cache, keyed by fingerprint. -/
abbrev CmdCache := String → Option CacheEntry

/-- `get_cache_key(intent) = md5(intent.lower().strip()).hexdigest()`.
The md5 hex digest of the normalized text is modelled by the normalized
text itself (`hashlib` is an external primitive; the model is its
collision-free abstraction, preserving exactly the key-derivation
normalization: case folding then whitespace trimming). -/
def get_cache_key (intent : String) : String :=
  pyStrip (pyLower intent)

/-- `set_command_cache(intent, command)`: overwrite the entry for the
fingerprint of `intent` with a fresh entry (`use_count = 1`). -/
def set_command_cache (now intent : String) (command : Intent)
    (cache : CmdCache) : CmdCache :=
  fun k =>
    if k = get_cache_key intent then
      some ⟨intent, command, now, 1⟩
    else cache k

/-- `get_cached_command(intent)`: on a hit increment the entry's use
count and return the stored command; on a miss return `none`.  Returns
the command and the updated cache. -/
def get_cached_command (intent : String) (cache : CmdCache) :
    Option Intent × CmdCache :=
  match cache (get_cache_key intent) with
  | some e =>
    (some e.command,
     fun k =>
       if k = get_cache_key intent then
         some { e with use_count := e.use_count + 1 }
       else cache k)
  | none => (none, cache)

/-- The resolution prefix of `process_message`: probe the cache with the
*original* message text; on a hit return the cached command with no
external call; on a miss resolve via `call_gemini` and store the result
when its action is not "unknown".  Returns (response, cache-hit flag,
updated cache, request bodies sent over the network).  The handler
dispatch that follows in the source is UI-facing and out of the
specified core. -/
def process_message (env : GeminiEnv) (now : String) (cache : CmdCache)
    (user_message : String) : Intent × Bool × CmdCache × List String :=
  match get_cached_command user_message cache with
  | (some cmd, cache2) => (cmd, true, cache2, [])
  | (none, cache2) =>
    let res := call_gemini env user_message
    let cache3 :=
      if res.1.action ≠ "unknown" then
        set_command_cache now user_message res.1 cache2
      else cache2
    (res.1, false, cache3, res.2)

/-! ## The host/alert snapshot and the query engine

The snapshot (`hosts`, `alerts` of the mock data) is supplied by an
external data-loading collaborator (`get_hosts` / `get_alerts` read it
from a cached file); the query functions receive it as parameters. -/

/-- A host record: its type and metric map. -/
structure Host : Type where
  htype : String
  metrics : List (String × ℚ)
deriving DecidableEq, Repr

/-- An alert record. -/
structure Alert : Type where
  host : String
  severity : String
  message : String
deriving DecidableEq, Repr

/-- The hosts referenced by a high-severity alert (the membership model
of the source's `set(a["host"] for a in alerts if a["severity"] ==
"high")`). -/
def highAlertHosts (alerts : List Alert) : List String :=
  alerts.filterMap fun a => if a.severity = "high" then some a.host else none

/-- The hosts referenced by a warning-severity alert. -/
def warningAlertHosts (alerts : List Alert) : List String :=
  alerts.filterMap fun a => if a.severity = "warning" then some a.host else none

/-- Status summary counters. -/
structure StatusSummary : Type where
  ok : Nat
  warning : Nat
  error : Nat
  total : Nat
deriving DecidableEq, Repr

/-- One iteration of the summary loop over (ok, warn, error) counters:
a host counts as error if it has a high alert, else warning if it has a
warning alert, else ok. -/
def statusCountStep (ah wh : List String) (acc : Nat × Nat × Nat)
    (p : String × Host) : Nat × Nat × Nat :=
  if ah.contains p.1 then (acc.1, acc.2.1, acc.2.2 + 1)
  else if wh.contains p.1 then (acc.1, acc.2.1 + 1, acc.2.2)
  else (acc.1 + 1, acc.2.1, acc.2.2)

/-- `get_server_status_summary()`: count each host by derived status;
`total` is the number of hosts. -/
def get_server_status_summary (hosts : List (String × Host))
    (alerts : List Alert) : StatusSummary :=
  let ah := highAlertHosts alerts
  let wh := warningAlertHosts alerts
  let counts := hosts.foldl (statusCountStep ah wh) (0, 0, 0)
  ⟨counts.1, counts.2.1, counts.2.2, hosts.length⟩

/-- A host matched by a metric condition, annotated with the current
value of the queried metric. -/
structure HostMatch : Type where
  host_id : String
  host : Host
  current_value : ℚ
deriving DecidableEq, Repr

/-- Descending order on the annotated value (`sorted(..., reverse=True)`
sorts by the key in descending order, stably). -/
def hmGE (a b : HostMatch) : Prop := b.current_value ≤ a.current_value

instance : DecidableRel hmGE :=
  fun a b => inferInstanceAs (Decidable (b.current_value ≤ a.current_value))

instance : IsTotal HostMatch hmGE :=
  ⟨fun a b => le_total b.current_value a.current_value⟩

instance : IsTrans HostMatch hmGE :=
  ⟨fun _ _ _ h1 h2 => le_trans h2 h1⟩

/-- One host's contribution to a condition query: its metric value when
the metric is present and the operator relates it to the threshold. -/
def condPick (metric operator : String) (value : ℚ) (p : String × Host) :
    Option HostMatch :=
  match p.2.metrics.lookup metric with
  | some cv =>
    let ok :=
      if operator = ">" then decide (cv > value)
      else if operator = ">=" then decide (cv ≥ value)
      else if operator = "<" then decide (cv < value)
      else if operator = "<=" then decide (cv ≤ value)
      else if operator = "=" then decide (cv = value)
      else false
    if ok then some ⟨p.1, p.2, cv⟩ else none
  | none => none

/-- `get_hosts_by_condition(metric, operator, value)`: the hosts whose
queried metric satisfies the condition, annotated with the value and
sorted by it in descending order. -/
def get_hosts_by_condition (hosts : List (String × Host))
    (metric operator : String) (value : ℚ) : List HostMatch :=
  (hosts.filterMap (condPick metric operator value)).insertionSort hmGE

/-- An entry of a status query result: the host, the triggering alert for
the error/warning filters, and the derived status for the "all" filter
(absent keys of the source's result dicts are `none`). -/
structure StatusEntry : Type where
  host_id : String
  host : Host
  alert : Option Alert
  status : Option String
deriving DecidableEq, Repr

/-- The high-severity alert dict `{a["host"]: a}`: membership is by key;
a later alert for the same host overwrites, so value lookup takes the
last binding. -/
def highAlertMap (alerts : List Alert) : List (String × Alert) :=
  alerts.filterMap fun a => if a.severity = "high" then some (a.host, a) else none

/-- The warning-severity alert dict. -/
def warningAlertMap (alerts : List Alert) : List (String × Alert) :=
  alerts.filterMap fun a => if a.severity = "warning" then some (a.host, a) else none

/-- Last-binding lookup: the value a Python dict comprehension stores. -/
def lookupLast (l : List (String × Alert)) (k : String) : Option Alert :=
  l.reverse.lookup k

/-- `get_hosts_by_status(status)`: filter the hosts by derived status, or
annotate every host with its status when `status = "all"`. -/
def get_hosts_by_status (hosts : List (String × Host))
    (alerts : List Alert) (status : String) : List StatusEntry :=
  let am := highAlertMap alerts
  let wm := warningAlertMap alerts
  hosts.filterMap fun p =>
    if status = "error" then
      match lookupLast am p.1 with
      | some a => some ⟨p.1, p.2, some a, none⟩
      | none => none
    else if status = "warning" then
      match lookupLast wm p.1 with
      | some a =>
        if (am.map Prod.fst).contains p.1 then none
        else some ⟨p.1, p.2, some a, none⟩
      | none => none
    else if status = "ok" then
      if (am.map Prod.fst).contains p.1 || (wm.map Prod.fst).contains p.1 then none
      else some ⟨p.1, p.2, none, none⟩
    else if status = "all" then
      some ⟨p.1, p.2, none,
        some (if (am.map Prod.fst).contains p.1 then "error"
          else if (wm.map Prod.fst).contains p.1 then "warning" else "ok")⟩
    else none

/-! ## The topology compiler (`generate_zabbix_config`)

The topology is a JSON object host-id → node; it is modelled as an
association list in the dict's (insertion) iteration order.  Python
`set`s collected during the first loop are modelled as
first-occurrence-deduplicated lists — a stable iteration-order model of
the set; the layer groups are additionally sorted by the source.
Pythonic truthiness (`if d.get(k):`) is modelled explicitly: an absent
key, an empty string and a zero count are all falsy. -/

/-- `metadata.hw_inventory`. -/
structure HwInventory : Type where
  psu_count : Option Int
deriving DecidableEq, Repr

/-- `metadata` of a topology node. -/
structure NodeMeta : Type where
  vendor : Option String
  model : Option String
  location : Option String
  hw_inventory : Option HwInventory
deriving DecidableEq, Repr

/-- A topology node. -/
structure TopoNode : Type where
  layer : Int
  ntype : Option String
  metadata : Option NodeMeta
  redundancy_group : Option String
  parent_id : Option String
deriving DecidableEq, Repr

/-- `host_data.get("metadata", {})`. -/
def metaOf (nd : TopoNode) : NodeMeta :=
  nd.metadata.getD ⟨none, none, none, none⟩

/-- `host_data.get("type", "unknown")`. -/
def dtypeOf (nd : TopoNode) : String :=
  nd.ntype.getD "unknown"

/-- `host_data.get("metadata", {}).get("vendor", "default")`. -/
def vendorOf (nd : TopoNode) : String :=
  (metaOf nd).vendor.getD "default"

/-- Truthiness of an optional string (Python: absent or empty is falsy). -/
def optStrTruthy : Option String → Bool
  | some s => !s.isEmpty
  | none => false

/-- `f"Layer{host_data['layer']}"`. -/
def layerName (nd : TopoNode) : String := "Layer" ++ toString nd.layer

/-- A generated host group. -/
structure HostGroup : Type where
  name : String
  gtype : String
deriving DecidableEq, Repr

/-- A generated tag. -/
structure TagPair : Type where
  tag : String
  value : String
deriving DecidableEq, Repr

/-- A generated per-host configuration. -/
structure HostConfig : Type where
  host_id : String
  name : String
  groups : List String
  templates : List String
  tags : List TagPair
  macros : List (String × Int)
deriving DecidableEq, Repr

/-- A generated trigger. -/
structure Trigger : Type where
  host : String
  tname : String
  expression : String
  severity : String
deriving DecidableEq, Repr

/-- A generated dependency edge. -/
structure Dependency : Type where
  host : String
  depends_on : String
  dtype : String
deriving DecidableEq, Repr

/-- The generated configuration artifact. -/
structure ZabbixConfig : Type where
  host_groups : List HostGroup
  hosts : List HostConfig
  templates : List String
  triggers : List Trigger
  dependencies : List Dependency
deriving DecidableEq, Repr

/-- The distinct layer-group names, in first-occurrence order (the
`layers` set). -/
def topoLayers (t : List (String × TopoNode)) : List String :=
  firstDedup (t.map fun p => layerName p.2)

/-- The distinct truthy vendors (the `vendors` set). -/
def topoVendors (t : List (String × TopoNode)) : List String :=
  firstDedup (t.filterMap fun p =>
    match (metaOf p.2).vendor with
    | some v => if v.isEmpty then none else some v
    | none => none)

/-- The distinct truthy locations (the `locations` set). -/
def topoLocations (t : List (String × TopoNode)) : List String :=
  firstDedup (t.filterMap fun p =>
    match (metaOf p.2).location with
    | some l => if l.isEmpty then none else some l
    | none => none)

/-- The distinct truthy redundancy groups (the `ha_groups` set). -/
def topoHaGroups (t : List (String × TopoNode)) : List String :=
  firstDedup (t.filterMap fun p =>
    match p.2.redundancy_group with
    | some g => if g.isEmpty then none else some g
    | none => none)

/-- The `host_groups` section: layer groups sorted, then vendor, location
and HA groups. -/
def hostGroupsOf (t : List (String × TopoNode)) : List HostGroup :=
  ((topoLayers t).insertionSort (· ≤ ·)).map
      (fun l => HostGroup.mk ("Network/" ++ l) "layer") ++
    (topoVendors t).map (fun v => HostGroup.mk ("Vendor/" ++ v) "vendor") ++
    (topoLocations t).map (fun l => HostGroup.mk ("Location/" ++ l) "location") ++
    (topoHaGroups t).map (fun g => HostGroup.mk ("HA_Groups/" ++ g) "ha")

/-- The static (vendor, device type) → template table. -/
def template_map : List ((String × String) × List String) :=
  [(("Cisco", "ROUTER"), ["Template Cisco IOS-XE SNMP", "Template ICMP Ping"]),
   (("Cisco", "SWITCH"), ["Template Cisco Catalyst SNMP", "Template ICMP Ping"]),
   (("Juniper", "FIREWALL"), ["Template Juniper SRX SNMP", "Template ICMP Ping"]),
   (("default", "ACCESS_POINT"), ["Template Generic SNMP AP", "Template ICMP Ping"])]

/-- Template resolution: exact (vendor, type) entry, else the
("default", type) entry, else the generic reachability template. -/
def templatesFor (vendor dtype : String) : List String :=
  match template_map.lookup (vendor, dtype) with
  | some l => l
  | none =>
    match template_map.lookup ("default", dtype) with
    | some l => l
    | none => ["Template ICMP Ping"]

/-- The per-host configuration of the second compiler loop. -/
def hostConfigFor (p : String × TopoNode) : HostConfig :=
  let nd := p.2
  let vendor := vendorOf nd
  let dt := dtypeOf nd
  let groups :=
    ["Network/" ++ layerName nd] ++
      (if vendor ≠ "default" then ["Vendor/" ++ vendor] else []) ++
      (if optStrTruthy (metaOf nd).location then
        ["Location/" ++ ((metaOf nd).location.getD "")] else []) ++
      (if optStrTruthy nd.redundancy_group then
        ["HA_Groups/" ++ (nd.redundancy_group.getD "")] else [])
  let tags :=
    [TagPair.mk "layer" (toString nd.layer), TagPair.mk "type" dt] ++
      (if vendor ≠ "default" then [TagPair.mk "vendor" vendor] else []) ++
      (if optStrTruthy (metaOf nd).model then
        [TagPair.mk "model" ((metaOf nd).model.getD "")] else [])
  let macros :=
    match ((metaOf nd).hw_inventory.getD ⟨none⟩).psu_count with
    | some n => if n ≠ 0 then [("\x7b$PSU_COUNT\x7d", n)] else []
    | none => []
  ⟨p.1, p.1, groups, templatesFor vendor dt, tags, macros⟩

/-- The dependency edges: one `parent`-typed edge per node with a truthy
`parent_id`. -/
def dependenciesOf (t : List (String × TopoNode)) : List Dependency :=
  t.filterMap fun p =>
    match p.2.parent_id with
    | some par => if par.isEmpty then none else some ⟨p.1, par, "parent"⟩
    | none => none

/-- The triggers of the third compiler loop for one node: an unreachable
trigger (severity high for layer ≤ 2, else average); a CPU trigger for
ROUTER/SWITCH/FIREWALL types; an HA failover trigger if the node has a
truthy redundancy group. -/
def triggersFor (p : String × TopoNode) : List Trigger :=
  let nd := p.2
  let dt := dtypeOf nd
  [⟨p.1, p.1 ++ " is unreachable", "nodata(/" ++ p.1 ++ "/icmp.ping,5m)=1",
    if nd.layer ≤ 2 then "high" else "average"⟩] ++
    (if dt ∈ (["ROUTER", "SWITCH", "FIREWALL"] : List String) then
      [⟨p.1, p.1 ++ " CPU usage is high",
        "last(/" ++ p.1 ++ "/system.cpu.util)>80", "warning"⟩]
    else []) ++
    (if optStrTruthy nd.redundancy_group then
      [⟨p.1, "HA Failover detected - " ++ p.1,
        "change(/" ++ p.1 ++ "/ha.role,1h)<>0", "warning"⟩]
    else [])

/-- `generate_zabbix_config(topology)`: groups, per-host configs (with
dependencies collected in the same pass) and per-host triggers.  A pure
function of the topology argument: it consults no cache or external
state. -/
def generate_zabbix_config (t : List (String × TopoNode)) : ZabbixConfig :=
  ⟨hostGroupsOf t, t.map hostConfigFor, [], t.flatMap triggersFor,
   dependenciesOf t⟩

/-! ## Supporting lemmas -/

set_option maxRecDepth 40000
set_option maxHeartbeats 2000000

theorem toNat_charOfNat {n : Nat} (h : n < 55296) : (Char.ofNat n).toNat = n := by
  have hv : n.isValidChar := Or.inl (by omega)
  rw [Char.ofNat, dif_pos hv]
  rfl

theorem lowerChar_idem (c : Char) : lowerChar (lowerChar c) = lowerChar c := by
  unfold lowerChar
  by_cases h : 65 ≤ c.toNat ∧ c.toNat ≤ 90
  · rw [if_pos h, if_neg]
    rw [toNat_charOfNat (by omega)]
    omega
  · rw [if_neg h, if_neg h]

theorem map_lowerChar_idem (l : List Char) :
    (l.map lowerChar).map lowerChar = l.map lowerChar := by
  induction l with
  | nil => rfl
  | cons x xs ih => simp [ih, lowerChar_idem]

theorem lowerChar_comp_lowerChar : lowerChar ∘ lowerChar = lowerChar :=
  funext lowerChar_idem

theorem lowerChar_space : lowerChar ' ' = ' ' := by decide

theorem isSpaceP_space : isSpaceP ' ' = true := by decide

/-! ## Verified claims -/

/-- C9: the local fallback matcher resolves "ROUTER_01を2時間メンテナンスに"
to a `set_maintenance` intent for host ROUTER_01 with a duration of 120
minutes (the extracted number 2 multiplied by 60 because the unit 時間 is
hours). -/
theorem C9_maintenance_parsing :
    generate_mock_response "ROUTER_01を2時間メンテナンスに" =
      ⟨"ROUTER_01をメンテナンスモードに設定", "set_maintenance",
       [("host_id", .pstr "ROUTER_01"), ("duration_minutes", .pnum (2 * 60))]⟩ := by
  decide

/-- C1: every request body the resolver sends over the network is the
fixed prompt built from the *sanitized* text — a function of
`sanitize_message` output alone.  Part one: any sent body equals the
prompt of the sanitized message.  Part two (noninterference): two raw
texts with the same sanitizer output produce identical network traffic,
so the raw pre-sanitization text never influences what leaves the process
boundary beyond its sanitized form. -/
theorem C1_request_carries_only_sanitized_text :
    (∀ (env : GeminiEnv) (msg body : String),
        body ∈ (call_gemini env msg).2 →
        body = gemini_prompt (sanitize_message msg).1) ∧
    (∀ (env : GeminiEnv) (m1 m2 : String),
        (sanitize_message m1).1 = (sanitize_message m2).1 →
        (call_gemini env m1).2 = (call_gemini env m2).2) := by
  constructor
  · intro env msg body hmem
    unfold call_gemini at hmem
    by_cases hk : env.apiKey = ""
    · simp [hk] at hmem
    · simp [hk] at hmem
      exact hmem
  · intro env m1 m2 hsan
    unfold call_gemini
    by_cases hk : env.apiKey = ""
    · simp [hk]
    · simp [hk, hsan]

/-- A concrete environment with a configured key and a timing-out remote. -/
def envC1 : GeminiEnv :=
  ⟨"test-key", fun _ => RemoteOutcome.timeout, fun _ => none⟩

/-- Witness for C1 at concrete inputs: "password=Secret123" and
"password=Hunter24x" sanitize identically, the body actually sent is the
prompt of the sanitized text, and the network traffic of the two runs is
identical. -/
theorem C1_witness :
    (sanitize_message "password=Secret123").1 = (sanitize_message "password=Hunter24x").1 ∧
    gemini_prompt (sanitize_message "password=Secret123").1
      ∈ (call_gemini envC1 "password=Secret123").2 ∧
    gemini_prompt (sanitize_message "password=Secret123").1 =
      gemini_prompt (sanitize_message "password=Secret123").1 ∧
    (call_gemini envC1 "password=Secret123").2 = (call_gemini envC1 "password=Hunter24x").2 := by
  have hsan : (sanitize_message "password=Secret123").1 =
      (sanitize_message "password=Hunter24x").1 := by decide
  have hmem : gemini_prompt (sanitize_message "password=Secret123").1
      ∈ (call_gemini envC1 "password=Secret123").2 := by
    unfold call_gemini envC1
    simp
  exact ⟨hsan, hmem,
    C1_request_carries_only_sanitized_text.1 envC1 "password=Secret123" _ hmem,
    C1_request_carries_only_sanitized_text.2 envC1 "password=Secret123" "password=Hunter24x" hsan⟩

/-- C3: every remote-call failure — missing credentials, timeout,
transport error, malformed response shape, response without a JSON span,
or JSON that fails to parse — makes the resolver return exactly the local
matcher's result on the sanitized text.  (The embedding is a total
function: no failure escapes to the caller as an exception.) -/
theorem C3_remote_failure_falls_back_to_local (env : GeminiEnv) (msg : String)
    (h : env.apiKey = "" ∨
      env.remote (gemini_prompt (sanitize_message msg).1) = .timeout ∨
      env.remote (gemini_prompt (sanitize_message msg).1) = .transportError ∨
      env.remote (gemini_prompt (sanitize_message msg).1) = .badShape ∨
      (∃ t, env.remote (gemini_prompt (sanitize_message msg).1) = .text t ∧
        (json_search t = none ∨
          ∃ j, json_search t = some j ∧ env.loads j = none))) :
    (call_gemini env msg).1 = generate_mock_response (sanitize_message msg).1 := by
  unfold call_gemini
  by_cases hk : env.apiKey = ""
  · simp [hk]
  · rcases h with h | h | h | h | ⟨t, ht, hj⟩
    · exact absurd h hk
    · simp [hk, h]
    · simp [hk, h]
    · simp [hk, h]
    · rcases hj with hj | ⟨j, hj, hl⟩
      · simp [hk, ht, hj]
      · simp [hk, ht, hj, hl]

/-- A concrete environment whose remote call times out. -/
def envC3 : GeminiEnv :=
  ⟨"some-key", fun _ => RemoteOutcome.timeout, fun _ => none⟩

/-- Witness for C3: with a configured key and a timing-out transport, the
resolver's answer for "こんにちは" is the local matcher's answer on the
sanitized text. -/
theorem C3_witness :
    envC3.remote (gemini_prompt (sanitize_message "こんにちは").1) = .timeout ∧
    (call_gemini envC3 "こんにちは").1 =
      generate_mock_response (sanitize_message "こんにちは").1 :=
  ⟨rfl, C3_remote_failure_falls_back_to_local envC3 "こんにちは" (Or.inr (Or.inl rfl))⟩

/-- C4: the cache contract.  (1) After `put(t, i)` a lookup of `t`
returns `i`.  (2) A cache-hit lookup increments exactly that entry's use
count by 1.  (3) On a hit, `process_message` returns the cached intent,
reports it as cached, and sends nothing over the network.  (4) On a miss
with a non-"unknown" resolution, the result is stored under the
fingerprint of the *original* pre-sanitization text.  (5) The fingerprint
is invariant under case folding and under surrounding whitespace of the
original text. -/
theorem C4_cache_contract :
    (∀ (now t : String) (i : Intent) (c : CmdCache),
        (get_cached_command t (set_command_cache now t i c)).1 = some i) ∧
    (∀ (t : String) (c : CmdCache) (e : CacheEntry),
        c (get_cache_key t) = some e →
        (get_cached_command t c).2 (get_cache_key t) =
          some { e with use_count := e.use_count + 1 }) ∧
    (∀ (env : GeminiEnv) (now : String) (c : CmdCache) (msg : String) (cmd : Intent),
        (get_cached_command msg c).1 = some cmd →
        process_message env now c msg = (cmd, true, (get_cached_command msg c).2, [])) ∧
    (∀ (env : GeminiEnv) (now : String) (c : CmdCache) (msg : String),
        (get_cached_command msg c).1 = none →
        (call_gemini env msg).1.action ≠ "unknown" →
        (process_message env now c msg).2.2.1 (get_cache_key msg) =
          some ⟨msg, (call_gemini env msg).1, now, 1⟩) ∧
    (∀ t : String, get_cache_key (pyLower t) = get_cache_key t) ∧
    (∀ t : String, get_cache_key (" " ++ t) = get_cache_key t) ∧
    (∀ t : String, get_cache_key (t ++ " ") = get_cache_key t) := by
  refine ⟨?_, ?_, ?_, ?_, ?_, ?_, ?_⟩
  · intro now t i c
    simp [get_cached_command, set_command_cache]
  · intro t c e h
    simp [get_cached_command, h]
  · intro env now c msg cmd h
    unfold process_message
    rw [show get_cached_command msg c = (some cmd, (get_cached_command msg c).2) from by
      rw [← h]]
  · intro env now c msg h hact
    unfold process_message
    rw [show get_cached_command msg c = (none, (get_cached_command msg c).2) from by
      rw [← h]]
    simp only []
    rw [if_pos hact]
    simp [set_command_cache]
  · intro t
    simp [get_cache_key, pyLower, pyStrip, map_lowerChar_idem,
      lowerChar_comp_lowerChar]
  · intro t
    simp [get_cache_key, pyLower, pyStrip, String.data_append, lowerChar_space,
      isSpaceP_space]
  · intro t
    unfold get_cache_key pyLower pyStrip
    apply congrArg String.mk
    simp only [String.data_append]
    have hsp : (" ".data.map lowerChar) = [' '] := by decide
    rw [List.map_append, hsp, List.dropWhile_append]
    by_cases hE : List.dropWhile isSpaceP (t.data.map lowerChar) = []
    · simp [hE, isSpaceP_space]
    · have hE2 : (List.dropWhile isSpaceP (t.data.map lowerChar)).isEmpty = false := by
        simpa [List.isEmpty_iff] using hE
      simp only [hE2, Bool.false_eq_true, if_false, List.reverse_append]
      simp [isSpaceP_space]

/-- A fresh (empty) cache. -/
def emptyCache : CmdCache := fun _ => none

/-- The intent cached in the C4 witness. -/
def intentW : Intent := ⟨"テスト", "get_alerts", []⟩

/-- The one-entry cache of the C4 witness. -/
def cacheW : CmdCache := set_command_cache "T0" "Test Msg" intentW emptyCache

/-- Witness for C4 at concrete inputs: put-then-get returns the stored
intent; a hit bumps `use_count` from 1 to 2; a differently-cased probe
("test msg") still hits and is served from the cache with no network
traffic; a miss on an empty cache stores the resolved non-unknown intent
under the original text's fingerprint; and the fingerprint is invariant
under case and surrounding whitespace. -/
theorem C4_witness :
    (get_cached_command "Test Msg" cacheW).1 = some intentW ∧
    (get_cached_command "Test Msg" cacheW).2 (get_cache_key "Test Msg") =
      some ⟨"Test Msg", intentW, "T0", 2⟩ ∧
    process_message envC1 "T1" cacheW "test msg" =
      (intentW, true, (get_cached_command "test msg" cacheW).2, []) ∧
    (process_message envC1 "T2" emptyCache "サーバー一覧").2.2.1
        (get_cache_key "サーバー一覧") =
      some ⟨"サーバー一覧", (call_gemini envC1 "サーバー一覧").1, "T2", 1⟩ ∧
    get_cache_key (pyLower "Test Msg") = get_cache_key "Test Msg" ∧
    get_cache_key (" " ++ "Test Msg") = get_cache_key "Test Msg" ∧
    get_cache_key ("Test Msg" ++ " ") = get_cache_key "Test Msg" := by
  refine ⟨?_, ?_, ?_, ?_, ?_, ?_, ?_⟩
  · exact C4_cache_contract.1 "T0" "Test Msg" intentW emptyCache
  · exact C4_cache_contract.2.1 "Test Msg" cacheW ⟨"Test Msg", intentW, "T0", 1⟩ (by decide)
  · exact C4_cache_contract.2.2.1 envC1 "T1" cacheW "test msg" intentW (by decide)
  · exact C4_cache_contract.2.2.2.1 envC1 "T2" emptyCache "サーバー一覧" (by decide)
      (by decide)
  · exact C4_cache_contract.2.2.2.2.1 "Test Msg"
  · exact C4_cache_contract.2.2.2.2.2.1 "Test Msg"
  · exact C4_cache_contract.2.2.2.2.2.2 "Test Msg"

/-- The value `condPick` accepts, spelled out: the queried metric is
present with the annotated value and the operator relates it to the
threshold. -/
theorem condPick_eq_some_iff (metric op : String) (value : ℚ)
    (p : String × Host) (m : HostMatch) :
    condPick metric op value p = some m ↔
      m.host_id = p.1 ∧ m.host = p.2 ∧
      p.2.metrics.lookup metric = some m.current_value ∧
      ((op = ">" ∧ m.current_value > value) ∨
       (op = ">=" ∧ m.current_value ≥ value) ∨
       (op = "<" ∧ m.current_value < value) ∨
       (op = "<=" ∧ m.current_value ≤ value) ∨
       (op = "=" ∧ m.current_value = value)) := by
  unfold condPick
  cases hl : p.2.metrics.lookup metric with
  | none => simp
  | some cv =>
    simp only [Option.some.injEq]
    constructor
    · intro h
      split_ifs at h <;> simp_all <;> (subst h; simp_all)
    · rintro ⟨h1, h2, h3, hsat⟩
      subst h3
      have hm : m = ⟨p.1, p.2, m.current_value⟩ := by
        cases m; simp_all
      rcases hsat with ⟨rfl, hs⟩ | ⟨rfl, hs⟩ | ⟨rfl, hs⟩ | ⟨rfl, hs⟩ | ⟨rfl, hs⟩ <;>
        simp [hs, ← hm] <;> (rw [← hs]; exact hm.symm)

/-- C7: the condition query returns exactly the hosts whose queried
metric satisfies the operator against the threshold, annotated with the
current value, in descending order of that value; and on the snapshot
{A: cpu 85, B: cpu 60, C: cpu 95} the query cpu > 80 returns C (95) then
A (85). -/
theorem C7_condition_query (hosts : List (String × Host)) (metric op : String)
    (value : ℚ) (hop : op ∈ ([">", ">=", "<", "<=", "="] : List String)) :
    List.Pairwise hmGE (get_hosts_by_condition hosts metric op value) ∧
    (∀ m : HostMatch,
      m ∈ get_hosts_by_condition hosts metric op value ↔
        ∃ p ∈ hosts,
          m.host_id = p.1 ∧ m.host = p.2 ∧
          p.2.metrics.lookup metric = some m.current_value ∧
          ((op = ">" ∧ m.current_value > value) ∨
           (op = ">=" ∧ m.current_value ≥ value) ∨
           (op = "<" ∧ m.current_value < value) ∨
           (op = "<=" ∧ m.current_value ≤ value) ∨
           (op = "=" ∧ m.current_value = value))) ∧
    get_hosts_by_condition
        [("A", ⟨"server", [("cpu", 85)]⟩), ("B", ⟨"server", [("cpu", 60)]⟩),
         ("C", ⟨"server", [("cpu", 95)]⟩)] "cpu" ">" 80 =
      [⟨"C", ⟨"server", [("cpu", 95)]⟩, 95⟩,
       ⟨"A", ⟨"server", [("cpu", 85)]⟩, 85⟩] := by
  refine ⟨?_, ?_, ?_⟩
  · exact List.sorted_insertionSort hmGE _
  · intro m
    unfold get_hosts_by_condition
    rw [List.mem_insertionSort, List.mem_filterMap]
    constructor
    · rintro ⟨p, hp, hpick⟩
      exact ⟨p, hp, (condPick_eq_some_iff metric op value p m).1 hpick⟩
    · rintro ⟨p, hp, hrest⟩
      exact ⟨p, hp, (condPick_eq_some_iff metric op value p m).2 hrest⟩
  · decide

/-- Witness for C7: the operator ">" is one of the five, and the
theorem's characterization holds at the example snapshot. -/
theorem C7_witness :
    (">" ∈ ([">", ">=", "<", "<=", "="] : List String)) ∧
    List.Pairwise hmGE (get_hosts_by_condition
      [("A", ⟨"server", [("cpu", 85)]⟩), ("B", ⟨"server", [("cpu", 60)]⟩),
       ("C", ⟨"server", [("cpu", 95)]⟩)] "cpu" ">" 80) :=
  ⟨by decide,
   (C7_condition_query
     [("A", ⟨"server", [("cpu", 85)]⟩), ("B", ⟨"server", [("cpu", 60)]⟩),
      ("C", ⟨"server", [("cpu", 95)]⟩)] "cpu" ">" 80 (by decide)).1⟩

/-- The summary fold counts every host exactly once. -/
theorem statusCountStep_fold_sum (ah wh : List String)
    (l : List (String × Host)) (acc : Nat × Nat × Nat) :
    (l.foldl (statusCountStep ah wh) acc).1 +
      (l.foldl (statusCountStep ah wh) acc).2.1 +
      (l.foldl (statusCountStep ah wh) acc).2.2 =
      acc.1 + acc.2.1 + acc.2.2 + l.length := by
  induction l generalizing acc with
  | nil => simp
  | cons p l ih =>
    simp only [List.foldl_cons, List.length_cons]
    rw [ih]
    unfold statusCountStep
    by_cases h1 : ah.contains p.1
    · rw [if_pos h1]; dsimp only; omega
    · rw [if_neg h1]
      by_cases h2 : wh.contains p.1
      · rw [if_pos h2]; dsimp only; omega
      · rw [if_neg h2]; dsimp only; omega

/-- Membership in the keys of the high-alert dict is existence of a
high-severity alert for the host. -/
theorem mem_highAlertMap_keys (alerts : List Alert) (hid : String) :
    ((highAlertMap alerts).map Prod.fst).contains hid = true ↔
      ∃ a ∈ alerts, a.severity = "high" ∧ a.host = hid := by
  rw [List.contains_iff_exists_mem_beq]
  unfold highAlertMap
  constructor
  · rintro ⟨x, hx, hbeq⟩
    rw [List.mem_map] at hx
    obtain ⟨q, hq, rfl⟩ := hx
    rw [List.mem_filterMap] at hq
    obtain ⟨a, ha, hfa⟩ := hq
    by_cases hs : a.severity = "high"
    · rw [if_pos hs] at hfa
      obtain rfl := Option.some.inj hfa
      exact ⟨a, ha, hs, (beq_iff_eq.mp hbeq).symm⟩
    · rw [if_neg hs] at hfa
      exact absurd hfa (by simp)
  · rintro ⟨a, ha, hs, hh⟩
    refine ⟨(a.host, a).1, ?_, by simp [hh]⟩
    rw [List.mem_map]
    exact ⟨(a.host, a), List.mem_filterMap.mpr ⟨a, ha, by rw [if_pos hs]⟩, rfl⟩

/-- Membership in the keys of the warning-alert dict. -/
theorem mem_warningAlertMap_keys (alerts : List Alert) (hid : String) :
    ((warningAlertMap alerts).map Prod.fst).contains hid = true ↔
      ∃ a ∈ alerts, a.severity = "warning" ∧ a.host = hid := by
  rw [List.contains_iff_exists_mem_beq]
  unfold warningAlertMap
  constructor
  · rintro ⟨x, hx, hbeq⟩
    rw [List.mem_map] at hx
    obtain ⟨q, hq, rfl⟩ := hx
    rw [List.mem_filterMap] at hq
    obtain ⟨a, ha, hfa⟩ := hq
    by_cases hs : a.severity = "warning"
    · rw [if_pos hs] at hfa
      obtain rfl := Option.some.inj hfa
      exact ⟨a, ha, hs, (beq_iff_eq.mp hbeq).symm⟩
    · rw [if_neg hs] at hfa
      exact absurd hfa (by simp)
  · rintro ⟨a, ha, hs, hh⟩
    refine ⟨(a.host, a).1, ?_, by simp [hh]⟩
    rw [List.mem_map]
    exact ⟨(a.host, a), List.mem_filterMap.mpr ⟨a, ha, by rw [if_pos hs]⟩, rfl⟩

/-- C10: the status classification partitions the hosts — the summary
counters sum to the host count, the "all" status query lists every host
exactly once (its host-id column is exactly the snapshot's key column in
order), and each listed entry's annotated status is "error" exactly when
the host has a high-severity alert, "warning" exactly when it has a
warning alert but no high one, and "ok" exactly when it has neither. -/
theorem C10_status_partition (hosts : List (String × Host)) (alerts : List Alert) :
    ((get_server_status_summary hosts alerts).ok +
        (get_server_status_summary hosts alerts).warning +
        (get_server_status_summary hosts alerts).error =
      (get_server_status_summary hosts alerts).total) ∧
    (get_server_status_summary hosts alerts).total = hosts.length ∧
    ((get_hosts_by_status hosts alerts "all").map StatusEntry.host_id =
      hosts.map Prod.fst) ∧
    ∀ e ∈ get_hosts_by_status hosts alerts "all",
      (e.status = some "error" ↔
        ∃ a ∈ alerts, a.severity = "high" ∧ a.host = e.host_id) ∧
      (e.status = some "warning" ↔
        (¬ ∃ a ∈ alerts, a.severity = "high" ∧ a.host = e.host_id) ∧
          ∃ a ∈ alerts, a.severity = "warning" ∧ a.host = e.host_id) ∧
      (e.status = some "ok" ↔
        (¬ ∃ a ∈ alerts, a.severity = "high" ∧ a.host = e.host_id) ∧
          ¬ ∃ a ∈ alerts, a.severity = "warning" ∧ a.host = e.host_id) := by
  refine ⟨?_, rfl, ?_, ?_⟩
  · unfold get_server_status_summary
    simp only []
    rw [statusCountStep_fold_sum]
    dsimp only
    omega
  · unfold get_hosts_by_status
    induction hosts with
    | nil => rfl
    | cons p l ih => simp_all
  · intro e he
    unfold get_hosts_by_status at he
    rw [List.mem_filterMap] at he
    obtain ⟨p, hp, hfp⟩ := he
    simp only [String.reduceEq, if_false, if_true, reduceIte] at hfp
    obtain rfl := Option.some.inj hfp
    simp only []
    by_cases h1 : ((highAlertMap alerts).map Prod.fst).contains p.1
    · rw [if_pos h1]
      rw [mem_highAlertMap_keys] at h1
      simp_all
    · rw [if_neg h1]
      rw [mem_highAlertMap_keys] at h1  -- hmm h1 is negation of Bool eq true
      by_cases h2 : ((warningAlertMap alerts).map Prod.fst).contains p.1
      · rw [if_pos h2]
        rw [mem_warningAlertMap_keys] at h2
        simp_all
      · rw [if_neg h2]
        rw [mem_warningAlertMap_keys] at h2
        simp_all

/-- Concrete snapshot of the C10 witness. -/
def hostsW : List (String × Host) :=
  [("H1", ⟨"server", []⟩), ("H2", ⟨"server", []⟩)]

/-- Concrete alerts of the C10 witness. -/
def alertsW : List Alert :=
  [⟨"H1", "high", "link down"⟩, ⟨"H2", "warning", "cpu warn"⟩]

/-- Witness for C10: on a concrete snapshot the counters sum to the host
count and the listed entry for H1 carries status "error" exactly because
H1 has a high alert. -/
theorem C10_witness :
    ((get_server_status_summary hostsW alertsW).ok +
        (get_server_status_summary hostsW alertsW).warning +
        (get_server_status_summary hostsW alertsW).error =
      (get_server_status_summary hostsW alertsW).total) ∧
    (⟨"H1", ⟨"server", []⟩, none, some "error"⟩ : StatusEntry) ∈
      get_hosts_by_status hostsW alertsW "all" ∧
    ((⟨"H1", ⟨"server", []⟩, none, some "error"⟩ : StatusEntry).status = some "error" ↔
      ∃ a ∈ alertsW, a.severity = "high" ∧
        a.host = (⟨"H1", ⟨"server", []⟩, none, some "error"⟩ : StatusEntry).host_id) :=
  ⟨(C10_status_partition hostsW alertsW).1, by decide,
   ((C10_status_partition hostsW alertsW).2.2.2 _ (by decide)).1⟩

/-! ### C6: the per-node trigger rules -/

/-- Boolean recognizer of the "unreachable" trigger of a given host. -/
def isUnreachFor (hid : String) (tr : Trigger) : Bool :=
  tr.host == hid && tr.tname == hid ++ " is unreachable"

/-- Boolean recognizer of the CPU trigger of a given host. -/
def isCpuFor (hid : String) (tr : Trigger) : Bool :=
  tr.host == hid && tr.tname == hid ++ " CPU usage is high"

/-- Boolean recognizer of the HA-failover trigger of a given host. -/
def isHaFor (hid : String) (tr : Trigger) : Bool :=
  tr.host == hid && tr.tname == "HA Failover detected - " ++ hid

theorem ne_of_length_ne {a b : String} (h : a.length ≠ b.length) : a ≠ b :=
  fun he => h (he ▸ rfl)

/-- Every trigger generated for a node carries that node's host id. -/
theorem host_of_mem_triggersFor (q : String × TopoNode) (tr : Trigger)
    (h : tr ∈ triggersFor q) : tr.host = q.1 := by
  unfold triggersFor at h
  by_cases hc : dtypeOf q.2 ∈ (["ROUTER", "SWITCH", "FIREWALL"] : List String) <;>
    by_cases hr : optStrTruthy q.2.redundancy_group = true <;>
    simp [hc, hr] at h <;> rcases h with rfl | rfl | rfl <;> rfl

/-- In a topology with distinct keys, an element sharing the key of a
member is that member. -/
theorem key_unique {t : List (String × TopoNode)}
    (hkeys : (t.map Prod.fst).Nodup) {hid : String} {nd : TopoNode}
    (hmem : (hid, nd) ∈ t) {q : String × TopoNode} (hq : q ∈ t)
    (h : q.1 = hid) : q = (hid, nd) := by
  induction t with
  | nil => cases hmem
  | cons p l ih =>
    have hk : p.1 ∉ l.map Prod.fst ∧ (l.map Prod.fst).Nodup := by
      rw [List.map_cons, List.nodup_cons] at hkeys
      exact hkeys
    rcases List.mem_cons.mp hmem with he1 | hm1 <;>
      rcases List.mem_cons.mp hq with he2 | hm2
    · rw [he2, ← he1]
    · exfalso
      apply hk.1
      have hp1 : p.1 = hid := by rw [← he1]
      rw [hp1, ← h]
      exact List.mem_map.mpr ⟨q, hm2, rfl⟩
    · exfalso
      apply hk.1
      rw [he2] at h
      rw [h]
      exact List.mem_map.mpr ⟨(hid, nd), hm1, rfl⟩
    · exact ih hk.2 hm1 hm2

/-- Nodes other than `hid` contribute nothing to a count of
`hid`-addressed triggers. -/
theorem countP_triggersFor_ne (q : String × TopoNode) (hid : String)
    (hne : q.1 ≠ hid) (pred : Trigger → Bool)
    (hpred : ∀ tr, pred tr = true → tr.host = hid) :
    (triggersFor q).countP pred = 0 := by
  rw [List.countP_eq_zero]
  intro tr htr hp
  exact hne (by rw [← host_of_mem_triggersFor q tr htr, hpred tr hp])

/-- With distinct keys, a count of `hid`-addressed triggers over the
whole artifact equals the count over the node's own triggers. -/
theorem countP_flatMap_triggersFor (t : List (String × TopoNode))
    (hid : String) (nd : TopoNode) (hmem : (hid, nd) ∈ t)
    (hkeys : (t.map Prod.fst).Nodup) (pred : Trigger → Bool)
    (hpred : ∀ tr, pred tr = true → tr.host = hid) :
    (t.flatMap triggersFor).countP pred = (triggersFor (hid, nd)).countP pred := by
  induction t with
  | nil => cases hmem
  | cons q l ih =>
    have hk : q.1 ∉ l.map Prod.fst ∧ (l.map Prod.fst).Nodup := by
      rw [List.map_cons, List.nodup_cons] at hkeys
      exact hkeys
    rw [List.flatMap_cons, List.countP_append]
    rcases List.mem_cons.mp hmem with he | hm
    · have hz : (l.flatMap triggersFor).countP pred = 0 := by
        rw [List.countP_eq_zero]
        intro tr htr hp
        rw [List.mem_flatMap] at htr
        obtain ⟨q', hq', htr'⟩ := htr
        have h1 : q'.1 = hid := by
          rw [← host_of_mem_triggersFor q' tr htr', hpred tr hp]
        apply hk.1
        have hq1 : q.1 = hid := by rw [← he]
        rw [hq1, ← h1]
        exact List.mem_map.mpr ⟨q', hq', rfl⟩
      rw [hz, Nat.add_zero, ← he]
    · have hq1 : q.1 ≠ hid := by
        intro he
        apply hk.1
        rw [he]
        exact List.mem_map.mpr ⟨(hid, nd), hm, rfl⟩
      rw [countP_triggersFor_ne q hid hq1 pred hpred]
      simpa using ih hm hk.2

theorem isUnreachFor_host {hid : String} {tr : Trigger}
    (h : isUnreachFor hid tr = true) : tr.host = hid := by
  unfold isUnreachFor at h
  exact beq_iff_eq.mp (Bool.and_elim_left h)

theorem isCpuFor_host {hid : String} {tr : Trigger}
    (h : isCpuFor hid tr = true) : tr.host = hid := by
  unfold isCpuFor at h
  exact beq_iff_eq.mp (Bool.and_elim_left h)

theorem isHaFor_host {hid : String} {tr : Trigger}
    (h : isHaFor hid tr = true) : tr.host = hid := by
  unfold isHaFor at h
  exact beq_iff_eq.mp (Bool.and_elim_left h)

theorem unreach_name_ne_cpu (hid : String) :
    (hid ++ " CPU usage is high") ≠ (hid ++ " is unreachable") := by
  apply ne_of_length_ne
  rw [String.length_append, String.length_append,
    show " CPU usage is high".length = 18 from rfl,
    show " is unreachable".length = 15 from rfl]
  omega

theorem ha_name_ne_unreach (hid : String) :
    ("HA Failover detected - " ++ hid) ≠ (hid ++ " is unreachable") := by
  apply ne_of_length_ne
  rw [String.length_append, String.length_append,
    show "HA Failover detected - ".length = 23 from rfl,
    show " is unreachable".length = 15 from rfl]
  omega

theorem ha_name_ne_cpu (hid : String) :
    ("HA Failover detected - " ++ hid) ≠ (hid ++ " CPU usage is high") := by
  apply ne_of_length_ne
  rw [String.length_append, String.length_append,
    show "HA Failover detected - ".length = 23 from rfl,
    show " CPU usage is high".length = 18 from rfl]
  omega

/-- Any trigger generated for a node is one of its three canonical
triggers. -/
theorem mem_triggersFor_cases (p : String × TopoNode) (tr : Trigger)
    (h : tr ∈ triggersFor p) :
    tr = ⟨p.1, p.1 ++ " is unreachable", "nodata(/" ++ p.1 ++ "/icmp.ping,5m)=1",
      if p.2.layer ≤ 2 then "high" else "average"⟩ ∨
    tr = ⟨p.1, p.1 ++ " CPU usage is high",
      "last(/" ++ p.1 ++ "/system.cpu.util)>80", "warning"⟩ ∨
    tr = ⟨p.1, "HA Failover detected - " ++ p.1,
      "change(/" ++ p.1 ++ "/ha.role,1h)<>0", "warning"⟩ := by
  unfold triggersFor at h
  by_cases hc : dtypeOf p.2 ∈ (["ROUTER", "SWITCH", "FIREWALL"] : List String) <;>
    by_cases hr : optStrTruthy p.2.redundancy_group = true <;>
    simp [hc, hr] at h <;> tauto

/-- C6: for every topology node (in a topology with distinct host ids)
the compiler emits exactly one "unreachable" trigger for that node, with
severity "high" exactly when its layer is at most 2 and "average"
otherwise; exactly one "CPU usage is high" trigger (severity "warning")
if and only if the node's type is ROUTER, SWITCH or FIREWALL; and exactly
one "HA Failover detected" trigger (severity "warning") if and only if
the node has a (truthy) redundancy group. -/
theorem C6_trigger_rules (t : List (String × TopoNode))
    (hkeys : (t.map Prod.fst).Nodup) (hid : String) (nd : TopoNode)
    (hmem : (hid, nd) ∈ t) :
    ((generate_zabbix_config t).triggers.countP (isUnreachFor hid) = 1) ∧
    (∀ tr ∈ (generate_zabbix_config t).triggers, isUnreachFor hid tr = true →
      tr.severity = if nd.layer ≤ 2 then "high" else "average") ∧
    ((generate_zabbix_config t).triggers.countP (isCpuFor hid) =
      if dtypeOf nd ∈ (["ROUTER", "SWITCH", "FIREWALL"] : List String) then 1 else 0) ∧
    (∀ tr ∈ (generate_zabbix_config t).triggers, isCpuFor hid tr = true →
      tr.severity = "warning") ∧
    ((generate_zabbix_config t).triggers.countP (isHaFor hid) =
      if optStrTruthy nd.redundancy_group then 1 else 0) ∧
    (∀ tr ∈ (generate_zabbix_config t).triggers, isHaFor hid tr = true →
      tr.severity = "warning") := by
  have htrig : (generate_zabbix_config t).triggers = t.flatMap triggersFor := rfl
  have hmemchar : ∀ tr, tr ∈ t.flatMap triggersFor →
      tr.host = hid → tr ∈ triggersFor (hid, nd) := by
    intro tr htr hh
    rw [List.mem_flatMap] at htr
    obtain ⟨q, hq, htr'⟩ := htr
    have : q = (hid, nd) := key_unique hkeys hmem hq
      (by rw [← host_of_mem_triggersFor q tr htr', hh])
    rw [← this]
    exact htr'
  refine ⟨?_, ?_, ?_, ?_, ?_, ?_⟩
  · rw [htrig, countP_flatMap_triggersFor t hid nd hmem hkeys _
      (fun tr h => isUnreachFor_host h)]
    unfold triggersFor
    by_cases hc : dtypeOf nd ∈ (["ROUTER", "SWITCH", "FIREWALL"] : List String) <;>
      by_cases hr : optStrTruthy nd.redundancy_group = true <;>
      simp [hc, hr, isUnreachFor, unreach_name_ne_cpu hid, ha_name_ne_unreach hid]
  · rw [htrig]
    intro tr htr hp
    have hp' : tr.host = hid ∧ tr.tname = hid ++ " is unreachable" := by
      simpa [isUnreachFor] using hp
    rcases mem_triggersFor_cases (hid, nd) tr (hmemchar tr htr hp'.1) with rfl | rfl | rfl
    · rfl
    · exact absurd hp'.2 (unreach_name_ne_cpu hid)
    · exact absurd hp'.2 (ha_name_ne_unreach hid)
  · rw [htrig, countP_flatMap_triggersFor t hid nd hmem hkeys _
      (fun tr h => isCpuFor_host h)]
    unfold triggersFor
    by_cases hc : dtypeOf nd ∈ (["ROUTER", "SWITCH", "FIREWALL"] : List String) <;>
      by_cases hr : optStrTruthy nd.redundancy_group = true <;>
      simp [hc, hr, isCpuFor, (unreach_name_ne_cpu hid).symm, ha_name_ne_cpu hid]
  · rw [htrig]
    intro tr htr hp
    have hp' : tr.host = hid ∧ tr.tname = hid ++ " CPU usage is high" := by
      simpa [isCpuFor] using hp
    rcases mem_triggersFor_cases (hid, nd) tr (hmemchar tr htr hp'.1) with rfl | rfl | rfl
    · exact absurd hp'.2.symm (unreach_name_ne_cpu hid)
    · rfl
    · exact absurd hp'.2 (ha_name_ne_cpu hid)
  · rw [htrig, countP_flatMap_triggersFor t hid nd hmem hkeys _
      (fun tr h => isHaFor_host h)]
    unfold triggersFor
    by_cases hc : dtypeOf nd ∈ (["ROUTER", "SWITCH", "FIREWALL"] : List String) <;>
      by_cases hr : optStrTruthy nd.redundancy_group = true <;>
      simp [hc, hr, isHaFor, (ha_name_ne_unreach hid).symm, (ha_name_ne_cpu hid).symm]
  · rw [htrig]
    intro tr htr hp
    have hp' : tr.host = hid ∧ tr.tname = "HA Failover detected - " ++ hid := by
      simpa [isHaFor] using hp
    rcases mem_triggersFor_cases (hid, nd) tr (hmemchar tr htr hp'.1) with rfl | rfl | rfl
    · exact absurd hp'.2.symm (ha_name_ne_unreach hid)
    · exact absurd hp'.2.symm (ha_name_ne_cpu hid)
    · rfl

/-- A concrete layer-1 router node. -/
def nodeR1 : TopoNode := ⟨1, some "ROUTER", none, none, none⟩

/-- A concrete layer-3 node with a redundancy group. -/
def nodeSrv : TopoNode := ⟨3, none, none, some "ha1", none⟩

/-- The two-node topology of the C6 and C5 witnesses. -/
def topoW : List (String × TopoNode) := [("R1", nodeR1), ("SRV", nodeSrv)]

/-- Witness for C6: in the concrete two-node topology, R1 gets exactly
one unreachable trigger, a CPU trigger because it is a ROUTER, and no HA
trigger because it has no redundancy group. -/
theorem C6_witness :
    (topoW.map Prod.fst).Nodup ∧
    ("R1", nodeR1) ∈ topoW ∧
    (generate_zabbix_config topoW).triggers.countP (isUnreachFor "R1") = 1 ∧
    (generate_zabbix_config topoW).triggers.countP (isCpuFor "R1") =
      (if dtypeOf nodeR1 ∈ (["ROUTER", "SWITCH", "FIREWALL"] : List String)
        then 1 else 0) ∧
    (generate_zabbix_config topoW).triggers.countP (isHaFor "R1") =
      (if optStrTruthy nodeR1.redundancy_group then 1 else 0) := by
  refine ⟨by decide, by decide, ?_, ?_, ?_⟩
  · exact (C6_trigger_rules topoW (by decide) "R1" nodeR1 (by decide)).1
  · exact (C6_trigger_rules topoW (by decide) "R1" nodeR1 (by decide)).2.2.1
  · exact (C6_trigger_rules topoW (by decide) "R1" nodeR1 (by decide)).2.2.2.2.1

/-! ### C5: compiler purity and (non-)independence of iteration order -/

theorem mem_firstDedupAcc {α : Type} [DecidableEq α] (l : List α)
    (seen : List α) (a : α) :
    a ∈ firstDedupAcc seen l ↔ a ∈ l ∧ a ∉ seen := by
  induction l generalizing seen with
  | nil => simp [firstDedupAcc]
  | cons x xs ih =>
    unfold firstDedupAcc
    by_cases hx : x ∈ seen
    · rw [if_pos hx, ih]
      constructor
      · rintro ⟨h1, h2⟩
        exact ⟨List.mem_cons_of_mem x h1, h2⟩
      · rintro ⟨h1, h2⟩
        rcases List.mem_cons.mp h1 with h | h
        · subst h
          exact absurd hx h2
        · exact ⟨h, h2⟩
    · rw [if_neg hx]
      constructor
      · intro hmem
        rcases List.mem_cons.mp hmem with h | h
        · subst h
          exact ⟨List.mem_cons_self _ _, hx⟩
        · obtain ⟨h1, h2⟩ := (ih _).mp h
          exact ⟨List.mem_cons_of_mem _ h1,
            fun hs => h2 (List.mem_cons_of_mem _ hs)⟩
      · rintro ⟨h1, h2⟩
        rcases List.mem_cons.mp h1 with h | h
        · subst h
          exact List.mem_cons_self a _
        · by_cases hax : a = x
          · subst hax
            exact List.mem_cons_self a _
          · refine List.mem_cons_of_mem _ ((ih _).mpr ⟨h, ?_⟩)
            intro hs
            rcases List.mem_cons.mp hs with h' | h'
            · exact hax h'
            · exact h2 h'

theorem nodup_firstDedupAcc {α : Type} [DecidableEq α] (l seen : List α) :
    (firstDedupAcc seen l).Nodup := by
  induction l generalizing seen with
  | nil => simp [firstDedupAcc]
  | cons x xs ih =>
    unfold firstDedupAcc
    by_cases hx : x ∈ seen
    · simpa [hx] using ih seen
    · rw [if_neg hx]
      refine List.nodup_cons.mpr ⟨?_, ih _⟩
      rw [mem_firstDedupAcc]
      rintro ⟨-, h2⟩
      exact h2 (List.mem_cons_self _ _)

/-- First-occurrence deduplication is congruent under permutation. -/
theorem firstDedup_perm {α : Type} [DecidableEq α] {l₁ l₂ : List α}
    (h : l₁.Perm l₂) : (firstDedup l₁).Perm (firstDedup l₂) := by
  unfold firstDedup
  rw [List.perm_ext_iff_of_nodup (nodup_firstDedupAcc _ _) (nodup_firstDedupAcc _ _)]
  intro a
  rw [mem_firstDedupAcc, mem_firstDedupAcc]
  simp [h.mem_iff]

/-- The sorted layer-group names are identical for permuted topologies. -/
theorem sortedLayers_eq {t₁ t₂ : List (String × TopoNode)} (h : t₁.Perm t₂) :
    (topoLayers t₁).insertionSort (· ≤ ·) =
      (topoLayers t₂).insertionSort (· ≤ ·) := by
  haveI : IsAntisymm String (· ≤ ·) := ⟨fun _ _ h1 h2 => le_antisymm h1 h2⟩
  have hperm : ((topoLayers t₁).insertionSort (· ≤ ·)).Perm
      ((topoLayers t₂).insertionSort (· ≤ ·)) :=
    ((List.perm_insertionSort _ _).trans
      (firstDedup_perm (h.map _))).trans (List.perm_insertionSort _ _).symm
  exact List.eq_of_perm_of_sorted hperm
    (List.sorted_insertionSort _ _) (List.sorted_insertionSort _ _)

/-- C5 (amended): the compiler is a pure function of the topology list,
and permuting the input mapping permutes each output component — host
groups, hosts, triggers, dependencies are preserved as multisets, and
the sorted layer-group segment is byte-identical — but, as the
counterexample shows, the output lists themselves follow the input's
iteration order. -/
theorem C5_compile_perm_congruence (t₁ t₂ : List (String × TopoNode))
    (h : t₁.Perm t₂) :
    ((generate_zabbix_config t₁).host_groups).Perm
      ((generate_zabbix_config t₂).host_groups) ∧
    ((generate_zabbix_config t₁).hosts).Perm ((generate_zabbix_config t₂).hosts) ∧
    ((generate_zabbix_config t₁).triggers).Perm
      ((generate_zabbix_config t₂).triggers) ∧
    ((generate_zabbix_config t₁).dependencies).Perm
      ((generate_zabbix_config t₂).dependencies) ∧
    ((topoLayers t₁).insertionSort (· ≤ ·) =
      (topoLayers t₂).insertionSort (· ≤ ·)) := by
  refine ⟨?_, List.Perm.map _ h, List.Perm.flatMap_right _ h,
    List.Perm.filterMap _ h, sortedLayers_eq h⟩
  unfold generate_zabbix_config hostGroupsOf
  refine List.Perm.append (List.Perm.append (List.Perm.append ?_ ?_) ?_) ?_
  · rw [sortedLayers_eq h]
  · exact List.Perm.map _ (firstDedup_perm (List.Perm.filterMap _ h))
  · exact List.Perm.map _ (firstDedup_perm (List.Perm.filterMap _ h))
  · exact List.Perm.map _ (firstDedup_perm (List.Perm.filterMap _ h))

/-- Counterexample for C5 as stated: swapping the iteration order of a
two-node topology changes the compiled artifact (the hosts and triggers
arrays follow insertion order), so the output is not independent of the
input mapping's iteration order. -/
theorem C5_counterexample :
    ([("R1", nodeR1), ("SRV", nodeSrv)] :
        List (String × TopoNode)).Perm [("SRV", nodeSrv), ("R1", nodeR1)] ∧
    generate_zabbix_config [("R1", nodeR1), ("SRV", nodeSrv)] ≠
      generate_zabbix_config [("SRV", nodeSrv), ("R1", nodeR1)] := by
  constructor
  · exact List.Perm.swap _ _ _
  · intro he
    have h3 := congrArg (fun c => c.hosts.map HostConfig.host_id) he
    simp [generate_zabbix_config, hostConfigFor] at h3

/-- Witness for C5 at the concrete swapped topologies. -/
theorem C5_witness :
    ((generate_zabbix_config [("R1", nodeR1), ("SRV", nodeSrv)]).hosts).Perm
      ((generate_zabbix_config [("SRV", nodeSrv), ("R1", nodeR1)]).hosts) ∧
    ((topoLayers [("R1", nodeR1), ("SRV", nodeSrv)]).insertionSort (· ≤ ·) =
      (topoLayers [("SRV", nodeSrv), ("R1", nodeR1)]).insertionSort (· ≤ ·)) :=
  ⟨(C5_compile_perm_congruence _ _ (List.Perm.swap _ _ _)).2.1,
   (C5_compile_perm_congruence _ _ (List.Perm.swap _ _ _)).2.2.2.2⟩

/-! ### C2 and C8: sanitizer properties -/

/-- A category once recorded stays recorded through the remaining rules. -/
theorem mem_snd_foldl_sanitizeStep (rules : List SanRule)
    (st : List Char × List String) (x : String) (h : x ∈ st.2) :
    x ∈ (rules.foldl sanitizeStep st).2 := by
  induction rules generalizing st with
  | nil => simpa using h
  | cons r rs ih =>
    rw [List.foldl_cons]
    apply ih
    unfold sanitizeStep
    by_cases hr : reTest true r.pattern st.1 = true <;> simp [hr, h]

/-- Membership is preserved into the deduplicated category list. -/
theorem mem_firstDedup_of_mem {α : Type} [DecidableEq α] {l : List α} {a : α}
    (h : a ∈ l) : a ∈ firstDedup l :=
  (mem_firstDedupAcc l [] a).mpr ⟨h, by simp⟩

/-- The sanitizer, written as an explicit pair of its two components. -/
theorem sanitize_message_eq (m : String) :
    sanitize_message m =
      (String.mk (SENSITIVE_PATTERNS.foldl sanitizeStep (m.data, [])).1,
       firstDedup (SENSITIVE_PATTERNS.foldl sanitizeStep (m.data, [])).2) := rfl

/-- C2 counterexample: the sanitizer is not idempotent.  On
"AKIAABCDEFGHIJKLMNOP1234567890123456" the first pass redacts the AWS
access key id, which exposes a fresh word boundary before the 16-digit
run; the second pass then additionally redacts those digits as a card
number, so both the output text and the detected categories differ
between the first and second pass. -/
theorem C2_counterexample :
    sanitize_message ((sanitize_message "AKIAABCDEFGHIJKLMNOP1234567890123456").1) ≠
      sanitize_message "AKIAABCDEFGHIJKLMNOP1234567890123456" := by
  decide

/-- C2 (amended): idempotence fails in general (see the counterexample);
it does hold on the spec's password exemplar, where the replacement
re-matches the password rule and reproduces itself exactly, categories
included. -/
theorem C2_password_exemplar_idempotent :
    sanitize_message ((sanitize_message "password=Secret123").1) =
      sanitize_message "password=Secret123" := by
  decide

/-- C8 counterexample: a text containing the password-style assignment
`password=Secret123` whose sanitized output still contains `Secret123`:
the assignment itself is redacted, but a bare repetition of the secret
outside any recognized assignment survives. -/
theorem C8_counterexample :
    reTest true r01_password.pattern "password=Secret123 Secret123".data = true ∧
    containsSub (sanitize_message "password=Secret123 Secret123").1.data
      "Secret123".data = true := by
  constructor <;> decide

/-- C8 (amended): for every text matched by the password rule, the
sanitizer reports the password category ("パスワード"); and on the
exemplar `password=Secret123` itself the output is exactly
`password=***REDACTED***`, which contains no occurrence of the secret.
The claim's stronger "no occurrence for any text" fails when the secret
also appears outside the assignment (see the counterexample). -/
theorem C8_password_detection (t : String)
    (h : reTest true r01_password.pattern t.data = true) :
    "パスワード" ∈ (sanitize_message t).2 ∧
    sanitize_message "password=Secret123" =
      ("password=***REDACTED***", ["パスワード"]) ∧
    containsSub "password=***REDACTED***".data "Secret123".data = false := by
  refine ⟨?_, by decide, by decide⟩
  have hcat : r01_password.category ∈ (sanitizeStep (t.data, []) r01_password).2 := by
    unfold sanitizeStep
    rw [if_pos h]
    simp
  have key : "パスワード" ∈ (SENSITIVE_PATTERNS.foldl sanitizeStep (t.data, [])).2 := by
    unfold SENSITIVE_PATTERNS
    rw [List.foldl_cons]
    exact mem_snd_foldl_sanitizeStep _ _ _ hcat
  rw [sanitize_message_eq]
  dsimp only
  exact mem_firstDedup_of_mem key

/-- Witness for C8: the exemplar text itself matches the password rule,
and the theorem's conclusions hold for it. -/
theorem C8_witness :
    reTest true r01_password.pattern "password=Secret123".data = true ∧
    "パスワード" ∈ (sanitize_message "password=Secret123").2 :=
  ⟨by decide, (C8_password_detection "password=Secret123" (by decide)).1⟩

end ZabbixAI
